import Mathlib

/-!
# Verification of the authentication subsystem of the investment-banking CRM backend

Shallow embedding of the authentication and session-lifecycle subsystem:
`src/routes/auth.js` (signup, login, refresh, change-password,
forgot-password, reset-password handlers) and `src/middleware/auth.js`
(`authenticateToken`, `validateRefreshToken`), over the user data model of
`src/models/index.js` (`userSchema`).

Timestamps are naturals (milliseconds).  JSON-web-token signing and
verification are modelled symbolically: a signed token records the secret it
was signed with, its payload claims and its expiry; verification succeeds
exactly when the presented secret matches the signing secret and the token is
unexpired, which is the guarantee of HMAC signing that the code relies on.
The external bcrypt library is modelled as an abstract one-way hash:
`compare p h` holds exactly when `h` was produced by hashing `p`.
-/

namespace CrmAuth

/-- Abstract bcrypt hash value (bcrypt is an external library; the code only
uses `bcrypt.hash` and `bcrypt.compare`, so the model keeps the defining
property: `compare p (hash q) = (p = q)`). -/
structure BHash where
  plain : String
deriving DecidableEq, Repr

/-- `bcrypt.hash(password, saltRounds)` as used with `saltRounds = 12`. -/
def bcryptHash (p : String) : BHash := ⟨p⟩

/-- `bcrypt.compare(password, hash)`. -/
def bcryptCompare (p : String) (h : BHash) : Bool := p == h.plain

/-- A signed JSON web token: the secret it was signed with, the payload
claims the code puts in (`id`, optionally `email`, optionally `purpose`),
and the expiry instant derived from `expiresIn`. -/
structure Token where
  key : String
  id : Nat
  email : Option String
  purpose : Option String
  exp : Nat
deriving DecidableEq, Repr

/-- Environment configuration: `process.env.JWT_SECRET` and the optional
`process.env.REFRESH_TOKEN_SECRET`. -/
structure Env where
  jwtSecret : String
  refreshSecret : Option String
deriving DecidableEq, Repr

/-- Default `JWT_EXPIRE`: 24 hours, in milliseconds. -/
def accessExpireMs : Nat := 24 * 60 * 60 * 1000

/-- Default `REFRESH_TOKEN_EXPIRE`: 7 days, in milliseconds. -/
def refreshExpireMs : Nat := 7 * 24 * 60 * 60 * 1000

/-- Reset-token `expiresIn: '1h'`, in milliseconds. -/
def resetExpireMs : Nat := 60 * 60 * 1000

/-- Lockout duration: 2 hours, in milliseconds. -/
def lockTimeMs : Nat := 2 * 60 * 60 * 1000

/-- Errors thrown by `jwt.verify`. -/
inductive JwtErr where
  | invalid
  | expired
deriving DecidableEq, Repr

/-- `jwt.verify(token, secret)` at instant `now`.  A missing secret
(`undefined`, as when `REFRESH_TOKEN_SECRET` is unset) always throws. -/
def jwtVerify (secret : Option String) (now : Nat) (t : Token) :
    Except JwtErr Token :=
  match secret with
  | none => .error .invalid
  | some s =>
    if t.key ≠ s then .error .invalid
    else if t.exp ≤ now then .error .expired
    else .ok t

/-- `jwt.sign({ id, email }, JWT_SECRET, { expiresIn: JWT_EXPIRE || '24h' })`. -/
def signAccess (env : Env) (now : Nat) (id : Nat) (email : String) : Token :=
  { key := env.jwtSecret, id := id, email := some email, purpose := none,
    exp := now + accessExpireMs }

/-- `jwt.sign({ id, email }, REFRESH_TOKEN_SECRET || JWT_SECRET,
{ expiresIn: REFRESH_TOKEN_EXPIRE || '7d' })`. -/
def signRefresh (env : Env) (now : Nat) (id : Nat) (email : String) : Token :=
  { key := env.refreshSecret.getD env.jwtSecret, id := id,
    email := some email, purpose := none, exp := now + refreshExpireMs }

/-- `jwt.sign({ id, purpose: 'password-reset' }, JWT_SECRET,
{ expiresIn: '1h' })` from the forgot-password handler. -/
def signReset (env : Env) (now : Nat) (id : Nat) : Token :=
  { key := env.jwtSecret, id := id, email := none,
    purpose := some "password-reset", exp := now + resetExpireMs }

/-- The persisted user record (`userSchema` in `src/models/index.js`). -/
structure UserRec where
  id : Nat
  email : String
  passwordHash : BHash
  role : String
  refreshTokens : List Token
  lastLogin : Option Nat
  loginAttempts : Nat
  lockUntil : Option Nat
  status : String
  passwordResetToken : Option Token
  passwordResetExpires : Option Nat
deriving DecidableEq, Repr

/-- An HTTP error response: status, message, code. -/
structure ApiError where
  status : Nat
  message : String
  code : String
deriving DecidableEq, Repr

def invalidCredentialsErr : ApiError :=
  ⟨401, "Invalid credentials", "INVALID_CREDENTIALS"⟩

def accountLockedErr : ApiError :=
  ⟨423, "Account temporarily locked due to too many failed login attempts",
   "ACCOUNT_LOCKED"⟩

def loginInactiveErr : ApiError :=
  ⟨401, "Account is not active", "ACCOUNT_INACTIVE"⟩

def userExistsErr : ApiError :=
  ⟨400, "User already exists with this email", "USER_EXISTS"⟩

def missingTokenErr : ApiError :=
  ⟨401, "Access token required", "MISSING_TOKEN"⟩

def userNotFoundErr : ApiError :=
  ⟨401, "User not found", "USER_NOT_FOUND"⟩

def gateInactiveErr : ApiError :=
  ⟨401, "Account is inactive", "ACCOUNT_INACTIVE"⟩

def tokenExpiredErr : ApiError :=
  ⟨401, "Token expired", "TOKEN_EXPIRED"⟩

def invalidTokenErr : ApiError :=
  ⟨403, "Invalid token", "INVALID_TOKEN"⟩

def missingRefreshErr : ApiError :=
  ⟨401, "Refresh token required", "MISSING_REFRESH_TOKEN"⟩

def invalidRefreshErr : ApiError :=
  ⟨401, "Invalid refresh token", "INVALID_REFRESH_TOKEN"⟩

def invalidCurrentPasswordErr : ApiError :=
  ⟨400, "Current password is incorrect", "INVALID_CURRENT_PASSWORD"⟩

def missingFieldsErr : ApiError :=
  ⟨400, "Token and new password are required", "MISSING_REQUIRED_FIELDS"⟩

def invalidResetTokenErr : ApiError :=
  ⟨400, "Invalid reset token", "INVALID_RESET_TOKEN"⟩

def invalidOrExpiredErr : ApiError :=
  ⟨400, "Invalid or expired reset token", "INVALID_OR_EXPIRED_TOKEN"⟩

/-- Modelled from the spec: the virtual `isLocked` read by the login handler
(`src/routes/auth.js:124`) is not defined anywhere under `src/`; the spec
defines it as `lockUntil is set AND lockUntil > now`. -/
def isLocked (u : UserRec) (now : Nat) : Bool :=
  match u.lockUntil with
  | some l => now < l
  | none => false

/-- Modelled from the spec: the instance method `incLoginAttempts` called at
`src/routes/auth.js:150` is not defined anywhere under `src/`.  Spec: on
failure, if an existing `lockUntil` has elapsed, treat it as cleared and
restart the counter at 1; otherwise, if no active lock, increment
`loginAttempts`, and when the new count reaches 5 set
`lockUntil = now + 2h` without resetting the counter. -/
def incLoginAttempts (now : Nat) (u : UserRec) : UserRec :=
  match u.lockUntil with
  | some l =>
    if l ≤ now then { u with loginAttempts := 1, lockUntil := none }
    else u
  | none =>
    let n := u.loginAttempts + 1
    if 5 ≤ n then { u with loginAttempts := n, lockUntil := some (now + lockTimeMs) }
    else { u with loginAttempts := n }

/-- Modelled from the spec: the instance method `resetLoginAttempts` called
at `src/routes/auth.js:163` is not defined anywhere under `src/`.  Spec: on
success, clear both `loginAttempts` and `lockUntil`. -/
def resetLoginAttempts (u : UserRec) : UserRec :=
  { u with loginAttempts := 0, lockUntil := none }

/-- Outcome of the login handler: an error response, or the success response
carrying the new access token and the refresh token set as a cookie. -/
inductive LoginResp where
  | err (e : ApiError)
  | ok (accessToken refreshToken : Token)
deriving DecidableEq, Repr

/-- The `POST /auth/login` handler (`src/routes/auth.js:105`).  `lookup` is
the result of `User.findOne({ email })`; the first component of the result
is the persisted state of the found record after the attempt. -/
def login (env : Env) (now : Nat) (lookup : Option UserRec)
    (password : String) : Option UserRec × LoginResp :=
  match lookup with
  | none => (none, .err invalidCredentialsErr)
  | some user =>
    if isLocked user now then (some user, .err accountLockedErr)
    else if user.status ≠ "active" then (some user, .err loginInactiveErr)
    else if ¬ bcryptCompare password user.passwordHash then
      (some (incLoginAttempts now user), .err invalidCredentialsErr)
    else
      let u1 := if 0 < user.loginAttempts then resetLoginAttempts user else user
      let u2 := { u1 with lastLogin := some now }
      let access := signAccess env now u2.id u2.email
      let refreshTok := signRefresh env now u2.id u2.email
      let rts0 := u2.refreshTokens ++ [refreshTok]
      let rts := if 5 < rts0.length then rts0.drop (rts0.length - 5) else rts0
      (some { u2 with refreshTokens := rts }, .ok access refreshTok)

/-- The `POST /auth/signup` handler (`src/routes/auth.js:24`).  `existing` is
the result of `User.findOne({ email })`; on success returns the created
record, the access token of the response body and the refresh token set as a
cookie. -/
def signup (env : Env) (now : Nat) (existing : Option UserRec)
    (email password : String) (newId : Nat) :
    Except ApiError (UserRec × Token × Token) :=
  match existing with
  | some _ => .error userExistsErr
  | none =>
    let access := signAccess env now newId email
    let refreshTok := signRefresh env now newId email
    .ok ({ id := newId, email := email, passwordHash := bcryptHash password,
           role := "user", refreshTokens := [refreshTok],
           lastLogin := some now, loginAttempts := 0, lockUntil := none,
           status := "active", passwordResetToken := none,
           passwordResetExpires := none }, access, refreshTok)

/-- The `authenticateToken` middleware (`src/middleware/auth.js:5`): verify
the bearer token with `JWT_SECRET`, load the subject, reject only the exact
status `'inactive'`, and attach the loaded record to the request. -/
def authenticateToken (env : Env) (now : Nat) (token : Option Token)
    (findById : Nat → Option UserRec) : Except ApiError UserRec :=
  match token with
  | none => .error missingTokenErr
  | some t =>
    match jwtVerify (some env.jwtSecret) now t with
    | .error .expired => .error tokenExpiredErr
    | .error .invalid => .error invalidTokenErr
    | .ok d =>
      match findById d.id with
      | none => .error userNotFoundErr
      | some user =>
        if user.status = "inactive" then .error gateInactiveErr
        else .ok user

/-- The `validateRefreshToken` middleware (`src/middleware/auth.js:101`):
verify with `REFRESH_TOKEN_SECRET` (no fallback), load the subject; any
verification failure is the same 401 response. -/
def validateRefreshToken (env : Env) (now : Nat) (token : Option Token)
    (findById : Nat → Option UserRec) : Except ApiError UserRec :=
  match token with
  | none => .error missingRefreshErr
  | some t =>
    match jwtVerify env.refreshSecret now t with
    | .error _ => .error invalidRefreshErr
    | .ok d =>
      match findById d.id with
      | none => .error invalidRefreshErr
      | some user => .ok user

/-- The `POST /auth/refresh` handler (`src/routes/auth.js:226`): after
`validateRefreshToken`, sign and return a new access token only; nothing is
written to the store. -/
def refresh (env : Env) (now : Nat) (token : Option Token)
    (findById : Nat → Option UserRec) : Except ApiError Token :=
  match validateRefreshToken env now token findById with
  | .error e => .error e
  | .ok user => .ok (signAccess env now user.id user.email)

/-- The `POST /auth/change-password` handler (`src/routes/auth.js:305`),
acting on the authenticated user's record: verify the current password, then
store the new hash and empty the refresh-token list. -/
def changePassword (user : UserRec) (currentPassword newPassword : String) :
    Except ApiError UserRec :=
  if ¬ bcryptCompare currentPassword user.passwordHash then
    .error invalidCurrentPasswordErr
  else
    .ok { user with passwordHash := bcryptHash newPassword,
                    refreshTokens := [] }

/-- The store update of the `POST /auth/forgot-password` handler
(`src/routes/auth.js:357`) when the email is registered (the HTTP response
is the same generic 200 either way). -/
def forgotPassword (env : Env) (now : Nat) (user : Option UserRec) :
    Option UserRec :=
  match user with
  | none => none
  | some u =>
    some { u with passwordResetToken := some (signReset env now u.id),
                  passwordResetExpires := some (now + resetExpireMs) }

/-- The stored-expiry test of the reset-password handler:
`user.passwordResetExpires < new Date()` (false when the field is unset,
as comparison with `undefined` is false in JS). -/
def resetExpired (u : UserRec) (now : Nat) : Bool :=
  match u.passwordResetExpires with
  | some e => decide (e < now)
  | none => false

/-- The `POST /auth/reset-password` handler (`src/routes/auth.js:395`).
`tok`/`newPassword` are the request-body fields (`none`/empty string are
falsy and yield the missing-fields error); on success returns the updated
record. -/
def resetPassword (env : Env) (now : Nat) (tok : Option Token)
    (newPassword : Option String) (findById : Nat → Option UserRec) :
    Except ApiError UserRec :=
  match tok with
  | none => .error missingFieldsErr
  | some t =>
    match newPassword with
    | none => .error missingFieldsErr
    | some np =>
      if np.isEmpty then .error missingFieldsErr
      else
        match jwtVerify (some env.jwtSecret) now t with
        | .error _ => .error invalidOrExpiredErr
        | .ok d =>
          if d.purpose ≠ some "password-reset" then .error invalidResetTokenErr
          else
            match findById d.id with
            | none => .error invalidOrExpiredErr
            | some user =>
              if user.passwordResetToken ≠ some t then .error invalidOrExpiredErr
              else if resetExpired user now then .error invalidOrExpiredErr
              else .ok { user with passwordHash := bcryptHash np,
                                   passwordResetToken := none,
                                   passwordResetExpires := none,
                                   refreshTokens := [] }

/-- States of a user record reachable by a signup followed by any sequence
of login attempts (successful or failed) against it. -/
inductive AuthReach (env : Env) : UserRec → Prop where
  | signup_ : ∀ now existing email password newId u a r,
      signup env now existing email password newId = .ok (u, a, r) →
      AuthReach env u
  | login_ : ∀ u now password u' r, AuthReach env u →
      login env now (some u) password = (some u', r) →
      AuthReach env u'

/-! ## Basic lemmas -/

theorem bcryptCompare_hash (p q : String) :
    bcryptCompare p (bcryptHash q) = (p == q) := rfl

theorem incLoginAttempts_refreshTokens (now : Nat) (u : UserRec) :
    (incLoginAttempts now u).refreshTokens = u.refreshTokens := by
  unfold incLoginAttempts
  cases h : u.lockUntil <;> dsimp <;> split <;> rfl

theorem incLoginAttempts_status (now : Nat) (u : UserRec) :
    (incLoginAttempts now u).status = u.status := by
  unfold incLoginAttempts
  cases h : u.lockUntil <;> dsimp <;> split <;> rfl

theorem incLoginAttempts_passwordHash (now : Nat) (u : UserRec) :
    (incLoginAttempts now u).passwordHash = u.passwordHash := by
  unfold incLoginAttempts
  cases h : u.lockUntil <;> dsimp <;> split <;> rfl

/-! ## Concrete fixtures used by witnesses and counterexamples -/

/-- A deployment with distinct access and refresh secrets. -/
def envD : Env := ⟨"access-secret", some "refresh-secret"⟩

def userSuspended : UserRec :=
  { id := 7, email := "s@x.com", passwordHash := bcryptHash "pw",
    role := "user", refreshTokens := [], lastLogin := none,
    loginAttempts := 0, lockUntil := none, status := "suspended",
    passwordResetToken := none, passwordResetExpires := none }

def userActive : UserRec :=
  { id := 2, email := "b@x.com", passwordHash := bcryptHash "pw",
    role := "user", refreshTokens := [], lastLogin := none,
    loginAttempts := 0, lockUntil := none, status := "active",
    passwordResetToken := none, passwordResetExpires := none }

/-! ## Claim theorems -/

/-- Claim C10: for every credential record whose status is `'suspended'`,
the Request Gate (`authenticateToken`) accepts a valid unexpired access
token for that identity and attaches the record to the request; only the
exact status value `'inactive'` is rejected, so suspended identities still
reach protected handlers. -/
theorem gate_accepts_suspended (env : Env) (now : Nat) (t : Token)
    (u : UserRec) (f : Nat → Option UserRec) (hk : t.key = env.jwtSecret)
    (he : now < t.exp) (hf : f t.id = some u)
    (hs : u.status = "suspended") :
    authenticateToken env now (some t) f = .ok u := by
  have hne : ¬ t.exp ≤ now := by omega
  simp [authenticateToken, jwtVerify, hk, hne, hf, hs]

/-- Concrete run of `gate_accepts_suspended`: a suspended user, a fresh
access token, and the gate attaches the record. -/
theorem gate_accepts_suspended_witness :
    authenticateToken envD 5 (some (signAccess envD 0 7 "s@x.com"))
      (fun _ => some userSuspended) = .ok userSuspended :=
  gate_accepts_suspended envD 5 (signAccess envD 0 7 "s@x.com")
    userSuspended (fun _ => some userSuspended) rfl (by decide) rfl rfl

/-- Claim C7: the login failure for an unknown email and the login failure
for a registered email with a wrong password (identity unlocked and active)
are the same response: HTTP 401, message `Invalid credentials`, code
`INVALID_CREDENTIALS`. -/
theorem login_enumeration_resistant (env : Env) (now now2 : Nat)
    (u : UserRec) (pw pw2 : String) (hL : isLocked u now2 = false)
    (hA : u.status = "active")
    (hW : bcryptCompare pw2 u.passwordHash = false) :
    (login env now none pw).2 = .err invalidCredentialsErr ∧
    (login env now2 (some u) pw2).2 = .err invalidCredentialsErr ∧
    invalidCredentialsErr.status = 401 := by
  refine ⟨rfl, ?_, rfl⟩
  simp [login, hL, hA, hW]

/-- Concrete run of `login_enumeration_resistant`: unknown email vs. wrong
password against `userActive` give the same error. -/
theorem login_enumeration_resistant_witness :
    (login envD 0 none "pw").2 = .err invalidCredentialsErr ∧
    (login envD 0 (some userActive) "wrong").2 = .err invalidCredentialsErr ∧
    invalidCredentialsErr.status = 401 :=
  login_enumeration_resistant envD 0 0 userActive "pw" "wrong" rfl rfl
    (by decide)

/-- Claim C4: every refresh token that passes refresh-class signature and
expiry verification and whose subject still exists yields a new access
token from the refresh operation — and only an access token, with no
membership requirement on the stored `refreshTokens` list (the record `u`
is arbitrary) and no rotation (nothing is written). -/
theorem refresh_no_membership_no_rotation (env : Env) (now : Nat)
    (t : Token) (u : UserRec) (f : Nat → Option UserRec) (rs : String)
    (hrs : env.refreshSecret = some rs) (hk : t.key = rs)
    (he : now < t.exp) (hf : f t.id = some u) :
    refresh env now (some t) f = .ok (signAccess env now u.id u.email) := by
  have hne : ¬ t.exp ≤ now := by omega
  simp [refresh, validateRefreshToken, jwtVerify, hrs, hk, hne, hf]

/-- Concrete run of `refresh_no_membership_no_rotation`: the presented
token is not in the stored set (the set is empty), yet refresh succeeds. -/
theorem refresh_no_membership_no_rotation_witness :
    userActive.refreshTokens = [] ∧
    refresh envD 5 (some (signRefresh envD 0 2 "b@x.com"))
      (fun _ => some userActive) =
      .ok (signAccess envD 5 userActive.id userActive.email) :=
  ⟨rfl, refresh_no_membership_no_rotation envD 5
    (signRefresh envD 0 2 "b@x.com") userActive (fun _ => some userActive)
    "refresh-secret" rfl rfl (by decide) rfl⟩

/-- Claim C8: with distinct class secrets, a token signed with the
access-class secret presented as a refresh token fails verification, and a
token signed with the refresh-class secret presented as an access token
fails likewise — no cross-class acceptance. -/
theorem no_cross_class_acceptance (env : Env) (now nowV : Nat) (idn : Nat)
    (em : String) (f : Nat → Option UserRec) (rs : String)
    (hrs : env.refreshSecret = some rs) (hne : rs ≠ env.jwtSecret) :
    validateRefreshToken env nowV (some (signAccess env now idn em)) f =
      .error invalidRefreshErr ∧
    authenticateToken env nowV (some (signRefresh env now idn em)) f =
      .error invalidTokenErr := by
  constructor
  · simp [validateRefreshToken, jwtVerify, hrs, signAccess, Ne.symm hne]
  · simp [authenticateToken, jwtVerify, signRefresh, hrs, hne]

/-- Concrete run of `no_cross_class_acceptance` in the two-secret
deployment `envD`. -/
theorem no_cross_class_acceptance_witness :
    validateRefreshToken envD 0 (some (signAccess envD 0 2 "b@x.com"))
      (fun _ => some userActive) = .error invalidRefreshErr ∧
    authenticateToken envD 0 (some (signRefresh envD 0 2 "b@x.com"))
      (fun _ => some userActive) = .error invalidTokenErr :=
  no_cross_class_acceptance envD 0 0 2 "b@x.com"
    (fun _ => some userActive) "refresh-secret" rfl (by decide)

def userReset : UserRec :=
  { id := 7, email := "u2@x.com", passwordHash := bcryptHash "pw",
    role := "user", refreshTokens := [], lastLogin := none,
    loginAttempts := 0, lockUntil := none, status := "active",
    passwordResetToken := none, passwordResetExpires := none }

/-- Claim C2 (divergence): a 1-hour reset token (payload
`purpose = 'password-reset'`) is signed with `JWT_SECRET` — the same secret
the Request Gate verifies with — and `authenticateToken` never inspects the
`purpose` claim, so the reset token IS accepted as a bearer access token
(while the refresh flow, which verifies with `REFRESH_TOKEN_SECRET`, does
reject it). -/
theorem gate_accepts_reset_token :
    (signReset envD 0 7).purpose = some "password-reset" ∧
    authenticateToken envD 1000 (some (signReset envD 0 7))
      (fun _ => some userReset) = .ok userReset ∧
    validateRefreshToken envD 1000 (some (signReset envD 0 7))
      (fun _ => some userReset) = .error invalidRefreshErr :=
  ⟨rfl, rfl, rfl⟩

def userThreeTokens : UserRec :=
  { id := 3, email := "c@x.com", passwordHash := bcryptHash "pw",
    role := "user",
    refreshTokens := [signRefresh envD 0 3 "c@x.com",
                      signRefresh envD 1 3 "c@x.com",
                      signRefresh envD 2 3 "c@x.com"],
    lastLogin := none, loginAttempts := 0, lockUntil := none,
    status := "active", passwordResetToken := none,
    passwordResetExpires := none }

def userThreeTokensAfter : UserRec :=
  { userThreeTokens with passwordHash := bcryptHash "npw",
                         refreshTokens := [] }

/-- Claim C3 (divergence): an identity holds 3 active refresh tokens;
`changePassword` succeeds and empties the stored refresh-token set, yet
each of the 3 previously stored tokens, presented to the refresh
operation, still succeeds — `validateRefreshToken` never checks membership
in the stored set. -/
theorem refresh_accepts_revoked_after_change_password :
    userThreeTokens.refreshTokens.length = 3 ∧
    changePassword userThreeTokens "pw" "npw" = .ok userThreeTokensAfter ∧
    userThreeTokensAfter.refreshTokens = [] ∧
    refresh envD 10 (some (signRefresh envD 0 3 "c@x.com"))
      (fun _ => some userThreeTokensAfter) =
      .ok (signAccess envD 10 3 "c@x.com") ∧
    refresh envD 10 (some (signRefresh envD 1 3 "c@x.com"))
      (fun _ => some userThreeTokensAfter) =
      .ok (signAccess envD 10 3 "c@x.com") ∧
    refresh envD 10 (some (signRefresh envD 2 3 "c@x.com"))
      (fun _ => some userThreeTokensAfter) =
      .ok (signAccess envD 10 3 "c@x.com") :=
  ⟨rfl, rfl, rfl, rfl, rfl, rfl⟩

def userStaleLock : UserRec :=
  { id := 5, email := "e@x.com", passwordHash := bcryptHash "pw",
    role := "user", refreshTokens := [], lastLogin := none,
    loginAttempts := 0, lockUntil := some 100, status := "active",
    passwordResetToken := none, passwordResetExpires := none }

def userStaleLockAfter : UserRec :=
  { userStaleLock with lastLogin := some 200,
                       refreshTokens := [signRefresh envD 200 5 "e@x.com"] }

/-- Claim C5 (counterexample): a successful login from the pre-state
`loginAttempts = 0`, `lockUntil = some 100` (an expired lock) leaves
`lockUntil` set — the handler resets the two fields only when
`loginAttempts > 0`, so the claimed unconditional clearing fails. -/
theorem login_success_keeps_stale_lock :
    login envD 200 (some userStaleLock) "pw" =
      (some userStaleLockAfter,
       .ok (signAccess envD 200 5 "e@x.com")
           (signRefresh envD 200 5 "e@x.com")) ∧
    userStaleLock.loginAttempts = 0 ∧
    userStaleLockAfter.lockUntil = some 100 :=
  ⟨rfl, rfl, rfl⟩

/-- Claim C5 (amended): after every login with correct credentials against
an unlocked active identity, `loginAttempts` is 0; `lockUntil` is cleared
when the pre-state had `loginAttempts > 0`, and both fields are left
unchanged when the pre-state had `loginAttempts = 0` (so a stale expired
`lockUntil` survives). -/
theorem login_success_resets_attempts (env : Env) (now : Nat) (u : UserRec)
    (pw : String) (hL : isLocked u now = false) (hA : u.status = "active")
    (hP : bcryptCompare pw u.passwordHash = true) :
    ((login env now (some u) pw).1.map UserRec.loginAttempts = some 0) ∧
    (0 < u.loginAttempts →
      (login env now (some u) pw).1.map UserRec.lockUntil = some none) ∧
    (u.loginAttempts = 0 →
      (login env now (some u) pw).1.map UserRec.lockUntil =
        some u.lockUntil) ∧
    (∃ a r, (login env now (some u) pw).2 = .ok a r) := by
  by_cases h : 0 < u.loginAttempts
  · have h0 : u.loginAttempts ≠ 0 := Nat.pos_iff_ne_zero.mp h
    simp [login, hL, hA, hP, h, h0, resetLoginAttempts]
  · have h0 : u.loginAttempts = 0 := Nat.eq_zero_of_not_pos h
    simp [login, hL, hA, hP, h, h0]

/-- Concrete run of `login_success_resets_attempts` with pre-state
`loginAttempts = 3` and an expired lock: both fields are cleared. -/
theorem login_success_resets_attempts_witness :
    ((login envD 200 (some { userStaleLock with loginAttempts := 3 })
        "pw").1.map UserRec.loginAttempts = some 0) ∧
    (0 < ({ userStaleLock with loginAttempts := 3 } : UserRec).loginAttempts →
      (login envD 200 (some { userStaleLock with loginAttempts := 3 })
        "pw").1.map UserRec.lockUntil = some none) ∧
    (({ userStaleLock with loginAttempts := 3 } : UserRec).loginAttempts = 0 →
      (login envD 200 (some { userStaleLock with loginAttempts := 3 })
        "pw").1.map UserRec.lockUntil =
        some ({ userStaleLock with loginAttempts := 3 } : UserRec).lockUntil) ∧
    (∃ a r, (login envD 200 (some { userStaleLock with loginAttempts := 3 })
      "pw").2 = .ok a r) :=
  login_success_resets_attempts envD 200
    { userStaleLock with loginAttempts := 3 } "pw" rfl rfl (by decide)

/-- Claim C9: a successful `resetPassword` clears the stored
`passwordResetToken` (and empties the refresh-token set), and presenting
the same reset token a second time — at any later instant — fails with the
invalid-or-expired error: while the token still verifies, the stored-token
equality check no longer matches. -/
theorem reset_token_single_use (env : Env) (now now2 : Nat) (u : UserRec)
    (t : Token) (np np2 : String) (hk : t.key = env.jwtSecret)
    (hp : t.purpose = some "password-reset") (he : now < t.exp)
    (hst : u.passwordResetToken = some t)
    (hex : resetExpired u now = false) (hnp : np.isEmpty = false)
    (hnp2 : np2.isEmpty = false) :
    ∃ u', resetPassword env now (some t) (some np) (fun _ => some u) =
            .ok u' ∧
      u'.passwordResetToken = none ∧ u'.refreshTokens = [] ∧
      resetPassword env now2 (some t) (some np2) (fun _ => some u') =
        .error invalidOrExpiredErr := by
  have hne : ¬ t.exp ≤ now := by omega
  refine ⟨{ u with passwordHash := bcryptHash np, passwordResetToken := none, passwordResetExpires := none, refreshTokens := [] }, ?_, rfl, rfl, ?_⟩
  · simp [resetPassword, jwtVerify, hk, hne, hp, hst, hex, hnp]
  · by_cases hexp2 : t.exp ≤ now2
    · simp [resetPassword, jwtVerify, hk, hexp2, hnp2]
    · simp [resetPassword, jwtVerify, hk, hexp2, hnp2, hp]

def userPendingReset : UserRec :=
  { id := 9, email := "r@x.com", passwordHash := bcryptHash "pw",
    role := "user", refreshTokens := [], lastLogin := none,
    loginAttempts := 0, lockUntil := none, status := "active",
    passwordResetToken := some (signReset envD 0 9),
    passwordResetExpires := some resetExpireMs }

/-- Concrete run of `reset_token_single_use`: the pending reset for
`userPendingReset` is consumed at instant 100 and replayed at instant
200. -/
theorem reset_token_single_use_witness :
    ∃ u', resetPassword envD 100 (some (signReset envD 0 9)) (some "npw")
            (fun _ => some userPendingReset) = .ok u' ∧
      u'.passwordResetToken = none ∧ u'.refreshTokens = [] ∧
      resetPassword envD 200 (some (signReset envD 0 9)) (some "npw2")
        (fun _ => some u') = .error invalidOrExpiredErr :=
  reset_token_single_use envD 100 200 userPendingReset
    (signReset envD 0 9) "npw" "npw2" rfl rfl (by decide) rfl rfl rfl rfl

/-- Claim C1: from a record with no failed attempts and no prior lock, each
wrong-password login increments `loginAttempts`; the 5th consecutive
failure sets `lockUntil = now + 2h`, making `isLocked` true, and a
subsequent login with the correct password fails with the 423
account-locked response. -/
theorem fifth_failure_locks_account (env : Env) (u : UserRec)
    (pw wrong : String) (t1 t2 t3 t4 t5 later : Nat)
    (h0 : u.loginAttempts = 0) (h1 : u.lockUntil = none)
    (h2 : u.status = "active") (h3 : u.passwordHash = bcryptHash pw)
    (h4 : wrong ≠ pw) (h5 : t5 ≤ later) (h6 : later < t5 + lockTimeMs) :
    ∃ u1 u2 u3 u4 u5 : UserRec,
      login env t1 (some u) wrong = (some u1, .err invalidCredentialsErr) ∧
      u1.loginAttempts = 1 ∧ u1.lockUntil = none ∧
      login env t2 (some u1) wrong = (some u2, .err invalidCredentialsErr) ∧
      u2.loginAttempts = 2 ∧ u2.lockUntil = none ∧
      login env t3 (some u2) wrong = (some u3, .err invalidCredentialsErr) ∧
      u3.loginAttempts = 3 ∧ u3.lockUntil = none ∧
      login env t4 (some u3) wrong = (some u4, .err invalidCredentialsErr) ∧
      u4.loginAttempts = 4 ∧ u4.lockUntil = none ∧
      login env t5 (some u4) wrong = (some u5, .err invalidCredentialsErr) ∧
      u5.loginAttempts = 5 ∧ u5.lockUntil = some (t5 + lockTimeMs) ∧
      isLocked u5 later = true ∧
      login env later (some u5) pw = (some u5, .err accountLockedErr) ∧
      accountLockedErr.status = 423 := by
  have hcmp : bcryptCompare wrong u.passwordHash = false := by
    rw [h3, bcryptCompare_hash]
    exact beq_eq_false_iff_ne.mpr h4
  refine ⟨{ u with loginAttempts := 1 }, { u with loginAttempts := 2 },
    { u with loginAttempts := 3 }, { u with loginAttempts := 4 },
    { u with loginAttempts := 5, lockUntil := some (t5 + lockTimeMs) },
    ?_, rfl, h1, ?_, rfl, h1, ?_, rfl, h1, ?_, rfl, h1, ?_, rfl, rfl,
    ?_, ?_, rfl⟩
  · simp [login, isLocked, h1, h2, hcmp, incLoginAttempts, h0]
  · simp [login, isLocked, h1, h2, hcmp, incLoginAttempts]
  · simp [login, isLocked, h1, h2, hcmp, incLoginAttempts]
  · simp [login, isLocked, h1, h2, hcmp, incLoginAttempts]
  · simp [login, isLocked, h1, h2, hcmp, incLoginAttempts]
  · simp [isLocked, h6]
  · simp [login, isLocked, h6]

/-- Concrete run of `fifth_failure_locks_account`: five wrong-password
attempts against `userActive` at instants 0..4, then the correct password
at instant 10 is refused with status 423. -/
theorem fifth_failure_locks_account_witness :
    ∃ u1 u2 u3 u4 u5 : UserRec,
      login envD 0 (some userActive) "bad" =
        (some u1, .err invalidCredentialsErr) ∧
      u1.loginAttempts = 1 ∧ u1.lockUntil = none ∧
      login envD 1 (some u1) "bad" = (some u2, .err invalidCredentialsErr) ∧
      u2.loginAttempts = 2 ∧ u2.lockUntil = none ∧
      login envD 2 (some u2) "bad" = (some u3, .err invalidCredentialsErr) ∧
      u3.loginAttempts = 3 ∧ u3.lockUntil = none ∧
      login envD 3 (some u3) "bad" = (some u4, .err invalidCredentialsErr) ∧
      u4.loginAttempts = 4 ∧ u4.lockUntil = none ∧
      login envD 4 (some u4) "bad" = (some u5, .err invalidCredentialsErr) ∧
      u5.loginAttempts = 5 ∧ u5.lockUntil = some (4 + lockTimeMs) ∧
      isLocked u5 10 = true ∧
      login envD 10 (some u5) "pw" = (some u5, .err accountLockedErr) ∧
      accountLockedErr.status = 423 :=
  fifth_failure_locks_account envD userActive "pw" "bad" 0 1 2 3 4 10 rfl
    rfl rfl rfl (by decide) (by decide) (by decide)

/-- The token-list trim of the login success path keeps at most 5
entries. -/
theorem trimmed_length_le (l : List Token) (t : Token) :
    (if 5 < (l ++ [t]).length then
        (l ++ [t]).drop ((l ++ [t]).length - 5)
      else l ++ [t]).length ≤ 5 := by
  split
  · simp only [List.length_drop]
    omega
  · next h => omega

/-- A login against a stored record either leaves the token list untouched
(failure paths) or yields a list of at most 5 entries (success path). -/
theorem login_refreshTokens_cases (env : Env) (now : Nat) (u : UserRec)
    (pw : String) (u' : UserRec) (r : LoginResp)
    (h : login env now (some u) pw = (some u', r)) :
    u'.refreshTokens = u.refreshTokens ∨ u'.refreshTokens.length ≤ 5 := by
  unfold login at h
  dsimp only at h
  split at h
  · simp only [Prod.mk.injEq, Option.some.injEq] at h
    exact Or.inl (by rw [← h.1])
  · split at h
    · simp only [Prod.mk.injEq, Option.some.injEq] at h
      exact Or.inl (by rw [← h.1])
    · split at h
      · simp only [Prod.mk.injEq, Option.some.injEq] at h
        exact Or.inl (by rw [← h.1, incLoginAttempts_refreshTokens])
      · simp only [Prod.mk.injEq, Option.some.injEq] at h
        right
        rw [← h.1]
        exact trimmed_length_le _ _

/-- The success path of a login from a record holding exactly 5 refresh
tokens drops the oldest stored token and appends the new one. -/
theorem login_evicts_oldest (env : Env) (now : Nat) (u : UserRec)
    (pw : String) (u' : UserRec) (a rt : Token)
    (h : login env now (some u) pw = (some u', .ok a rt))
    (hlen : u.refreshTokens.length = 5) :
    u'.refreshTokens = u.refreshTokens.drop 1 ++ [rt] := by
  unfold login at h
  dsimp only at h
  split at h
  · simp at h
  · split at h
    · simp at h
    · split at h
      · simp at h
      · simp only [Prod.mk.injEq, Option.some.injEq, LoginResp.ok.injEq] at h
        obtain ⟨hu, -, hrt⟩ := h
        subst hrt
        rw [← hu]
        have hru :
            ((if 0 < u.loginAttempts then resetLoginAttempts u else u)).refreshTokens
              = u.refreshTokens := by
          split <;> rfl
        dsimp only
        simp only [hru, List.length_append, hlen]
        norm_num
        refine List.tail_append_singleton_of_ne_nil ?_
        intro hnil
        rw [hnil] at hlen
        simp at hlen

/-- Claim C6: at every record state reachable by a signup followed by any
sequence of login attempts, the stored `refreshTokens` list has at most 5
entries; and whenever a successful login appends a 6th token (the stored
list already holds 5), the oldest stored entry is the one evicted. -/
theorem refresh_tokens_bounded (env : Env) (u : UserRec)
    (h : AuthReach env u) :
    u.refreshTokens.length ≤ 5 ∧
    ∀ now pw u' a rt, login env now (some u) pw = (some u', .ok a rt) →
      u.refreshTokens.length = 5 →
      u'.refreshTokens = u.refreshTokens.drop 1 ++ [rt] := by
  refine ⟨?_, fun now pw u' a rt hstep hlen =>
    login_evicts_oldest env now u pw u' a rt hstep hlen⟩
  induction h with
  | signup_ now existing email password newId v a r hs =>
    cases existing with
    | some w => exact absurd hs (by simp [signup])
    | none =>
      simp only [signup, Except.ok.injEq, Prod.mk.injEq] at hs
      rw [← hs.1]
      simp
  | login_ v now password u' r hv hstep ih =>
    rcases login_refreshTokens_cases env now v password u' r hstep with
      heq | hle
    · rw [heq]; exact ih
    · exact hle

def userSignedUp : UserRec :=
  { id := 1, email := "a@x.com", passwordHash := bcryptHash "pw",
    role := "user", refreshTokens := [signRefresh envD 0 1 "a@x.com"],
    lastLogin := some 0, loginAttempts := 0, lockUntil := none,
    status := "active", passwordResetToken := none,
    passwordResetExpires := none }

/-- Concrete run of `refresh_tokens_bounded` at the state produced by a
signup at instant 0. -/
theorem refresh_tokens_bounded_witness :
    userSignedUp.refreshTokens.length ≤ 5 ∧
    ∀ now pw u' a rt,
      login envD now (some userSignedUp) pw = (some u', .ok a rt) →
      userSignedUp.refreshTokens.length = 5 →
      u'.refreshTokens = userSignedUp.refreshTokens.drop 1 ++ [rt] :=
  refresh_tokens_bounded envD userSignedUp
    (AuthReach.signup_ 0 none "a@x.com" "pw" 1 userSignedUp
      (signAccess envD 0 1 "a@x.com") (signRefresh envD 0 1 "a@x.com") rfl)

end CrmAuth
